import Mathlib

/-!
Shallow embedding of the project-manager backend (`src/api/index.go`).

Request payload types mirror the Go structs (Go pointer fields become
`Option`, `time.Time` becomes `Int`).  The persistent store (PostgreSQL
stored procedures under `project_manager.*`, not part of this repository's
source tree) is modelled from the spec as an explicit `Store` value; every
handler is a pure function from an optional bound request body (`none`
models a JSON binding failure) and a store to a result, the store after
the request, and the trace of store calls issued.
-/

namespace ProjectManager

/-- Go struct `User` (credential pair). -/
structure User where
  username : String
  password : String
  deriving DecidableEq, Repr

/-- Go struct `UserRoleChange`. -/
structure UserRoleChange where
  roleId : Int
  projectId : Int
  usersAdded : List Int
  usersRemoved : List Int
  deriving DecidableEq, Repr

/-- Go struct `NewProject`. -/
structure NewProject where
  projectName : String
  description : String
  createdBy : Int
  startDate : Int
  targetDate : Int
  picId : Int
  userRoles : List UserRoleChange
  deriving DecidableEq, Repr

/-- Go struct `AlterProject` (all pointer fields become `Option`). -/
structure AlterProject where
  projectId : Option Int
  projectName : Option String
  description : Option String
  startDate : Option Int
  targetDate : Option Int
  picId : Option Int
  userRoles : List UserRoleChange
  deriving DecidableEq, Repr

/-- Go struct `NewBacklog`. -/
structure NewBacklog where
  projectId : Int
  backlogName : String
  description : String
  startDate : Int
  targetDate : Int
  createdBy : Int
  picId : Int
  priorityId : Int
  deriving DecidableEq, Repr

/-- Go struct `AlterBacklog`. -/
structure AlterBacklog where
  backlogId : Int
  backlogName : Option String
  description : Option String
  startDate : Option Int
  targetDate : Option Int
  picId : Option Int
  priorityId : Option Int
  deriving DecidableEq, Repr

/-- Go struct `NewWork`. -/
structure NewWork where
  backlogId : Int
  workName : String
  description : String
  startDate : Int
  targetDate : Int
  picId : Option Int
  currentState : Int
  createdBy : Int
  priorityId : Int
  estimatedHours : Int
  trackerId : Int
  activityId : Int
  usersAdded : List Int
  deriving DecidableEq, Repr

/-- Go struct `AlterWork`. -/
structure AlterWork where
  workId : Int
  workName : Option String
  description : Option String
  startDate : Option Int
  targetDate : Option Int
  picId : Option Int
  currentState : Option Int
  priorityId : Option Int
  estimatedHours : Option Int
  trackerId : Option Int
  activityId : Option Int
  usersRemoved : List Int
  usersAdded : List Int
  deriving DecidableEq, Repr

/-- Go struct `UserWorkChange`. -/
structure UserWorkChange where
  workId : Int
  usersAdded : List Int
  usersRemoved : List Int
  deriving DecidableEq, Repr

/-- Stored Project row (spec section 3 data model). -/
structure Project where
  projectId : Int
  projectName : String
  description : String
  createdBy : Int
  startDate : Int
  targetDate : Int
  picId : Int
  deriving DecidableEq, Repr

/-- Stored Backlog row (spec section 3 data model). -/
structure Backlog where
  backlogId : Int
  projectId : Int
  backlogName : String
  description : String
  startDate : Int
  targetDate : Int
  createdBy : Int
  picId : Int
  priorityId : Int
  deriving DecidableEq, Repr

/-- Stored Work row (spec section 3 data model). -/
structure Work where
  workId : Int
  backlogId : Int
  workName : String
  description : String
  startDate : Int
  targetDate : Int
  picId : Option Int
  currentState : Int
  createdBy : Int
  priorityId : Int
  estimatedHours : Int
  trackerId : Int
  activityId : Int
  deriving DecidableEq, Repr

/-- Modelled from the spec: the state of the external PostgreSQL store.
`membership` is the Project-User-Role relation keyed by
(projectId, roleId, userId); `workAssignment` is keyed by (workId, userId);
`credentials` maps a (username, password) pair to the JSON answer returned
by `get_user_id_by_credentials`. -/
structure Store where
  users : List Int
  credentials : List (String × String × String)
  projects : List Project
  nextProjectId : Int
  membership : List (Int × Int × Int)
  backlogs : List Backlog
  nextBacklogId : Int
  works : List Work
  nextWorkId : Int
  workAssignment : List (Int × Int)
  deriving DecidableEq, Repr

/-- Modelled from the spec: store-side error kinds (section 7 taxonomy:
`NotFoundError` and `ConstraintError`). -/
inductive StoreError where
  | notFound
  | constraint
  deriving DecidableEq, Repr

/-- One store round trip issued by a handler, carrying the arguments of the
SQL call in the order of the Go `db.QueryRow`/`db.Exec` invocation. -/
inductive StoreCall where
  | get_user_id_by_credentials (username password : String)
  | post_new_project (projectName description : String) (createdBy targetDate picId : Int)
  | put_alter_project (projectId : Option Int) (projectName description : Option String)
      (targetDate picId : Option Int)
  | alter_user_project_role (projectId roleId : Int) (usersRemoved usersAdded : List Int)
  | post_new_backlog (projectId : Int) (backlogName description : String)
      (startDate targetDate createdBy picId priorityId : Int)
  | put_alter_backlog (backlogId : Int) (backlogName description : Option String)
      (startDate targetDate picId priorityId : Option Int)
  | post_new_work (backlogId : Int) (workName : String) (priorityId : Int) (picId : Option Int)
      (description : String) (currentState createdBy targetDate startDate trackerId activityId : Int)
      (usersAdded : List Int) (estimatedHours : Int)
  | put_alter_work (workId : Int) (workName description : Option String)
      (startDate targetDate currentState picId priorityId estimatedHours trackerId activityId : Option Int)
      (usersRemoved usersAdded : List Int)
  | alter_user_work_assignment (workId : Int) (usersRemoved usersAdded : List Int)
  deriving DecidableEq, Repr

/-- Outcome a handler reports to the HTTP client: `ok`/`okData` are the
200 responses, `badRequest` a 400, `internalError` a 500, `panicNilDeref`
models a Go nil-pointer dereference crash. -/
inductive HandlerResult where
  | ok (msg : String)
  | okData (data : String)
  | badRequest (msg : String)
  | internalError (msg : String)
  | panicNilDeref
  deriving DecidableEq, Repr

/-- Modelled from the spec: SQL function
`project_manager.get_user_id_by_credentials(username, password)` — returns
the stored answer for a matching credential pair, fails otherwise. -/
def get_user_id_by_credentials (s : Store) (username password : String) :
    Except StoreError String :=
  match s.credentials.find? (fun cr => cr.1 == username && cr.2.1 == password) with
  | some cr => .ok cr.2.2
  | none => .error .notFound

/-- Modelled from the spec: SQL function
`project_manager.post_new_project(name, description, createdBy, targetDate, picId)`
— inserts a Project row with a fresh id and returns the id; fails with a
referential-integrity error when `createdBy` or `picId` is not a known
user.  The procedure receives no startDate, so the row's startDate takes
the store default 0. -/
def post_new_project (s : Store) (projectName description : String)
    (createdBy targetDate picId : Int) : Except StoreError (Store × Int) :=
  if s.users.contains createdBy && s.users.contains picId then
    let pid := s.nextProjectId
    .ok ({ s with
            projects := s.projects ++
              [{ projectId := pid, projectName := projectName, description := description,
                 createdBy := createdBy, startDate := 0, targetDate := targetDate,
                 picId := picId }],
            nextProjectId := pid + 1 }, pid)
  else
    .error .constraint

/-- Modelled from the spec: SQL procedure
`project_manager.put_alter_project(id, name, description, targetDate, picId)`
— coalesce-updates the matching Project row: every non-NULL argument
overwrites the attribute, a NULL argument leaves it unchanged.  A NULL or
unmatched id updates no row and succeeds; a non-user `picId` written to an
existing row is a referential violation. -/
def put_alter_project (s : Store) (projectId : Option Int)
    (projectName description : Option String) (targetDate picId : Option Int) :
    Except StoreError Store :=
  match projectId with
  | none => .ok s
  | some pid =>
    if s.projects.any (fun p => p.projectId == pid) then
      if (match picId with | some u => s.users.contains u | none => true) then
        .ok { s with
          projects := s.projects.map (fun p =>
            if p.projectId == pid then
              { p with
                projectName := projectName.getD p.projectName,
                description := description.getD p.description,
                targetDate := targetDate.getD p.targetDate,
                picId := picId.getD p.picId }
            else p) }
      else
        .error .constraint
    else
      .ok s

/-- Modelled from the spec: SQL procedure
`project_manager.alter_user_project_role(projectId, roleId, usersRemoved, usersAdded)`
— removes then adds membership for the (projectId, roleId) relation as one
store call (spec section 4.2); fails when the project does not exist or an
added user id is not a known user. -/
def alter_user_project_role (s : Store) (projectId roleId : Int)
    (usersRemoved usersAdded : List Int) : Except StoreError Store :=
  if !(s.projects.any (fun p => p.projectId == projectId)) then
    .error .notFound
  else if !(usersAdded.all (fun u => s.users.contains u)) then
    .error .constraint
  else
    let afterRemove := s.membership.filter (fun m =>
      !(m.1 == projectId && m.2.1 == roleId && usersRemoved.contains m.2.2))
    let added := (usersAdded.filter
      (fun u => !(afterRemove.contains (projectId, roleId, u)))).map
      (fun u => (projectId, roleId, u))
    .ok { s with membership := afterRemove ++ added }

/-- Modelled from the spec: SQL procedure `project_manager.post_new_backlog`
— inserts a Backlog row with a fresh id; fails when the parent project or
a referenced user does not exist. -/
def post_new_backlog (s : Store) (projectId : Int) (backlogName description : String)
    (startDate targetDate createdBy picId priorityId : Int) : Except StoreError Store :=
  if !(s.projects.any (fun p => p.projectId == projectId)) then
    .error .constraint
  else if !(s.users.contains createdBy && s.users.contains picId) then
    .error .constraint
  else
    .ok { s with
      backlogs := s.backlogs ++
        [{ backlogId := s.nextBacklogId, projectId := projectId, backlogName := backlogName,
           description := description, startDate := startDate, targetDate := targetDate,
           createdBy := createdBy, picId := picId, priorityId := priorityId }],
      nextBacklogId := s.nextBacklogId + 1 }

/-- Modelled from the spec: SQL procedure `project_manager.put_alter_backlog`
— coalesce-updates the matching Backlog row; NULL arguments leave the
attribute unchanged; an unmatched id updates no row and succeeds. -/
def put_alter_backlog (s : Store) (backlogId : Int)
    (backlogName description : Option String)
    (startDate targetDate picId priorityId : Option Int) : Except StoreError Store :=
  if s.backlogs.any (fun b => b.backlogId == backlogId) then
    if (match picId with | some u => s.users.contains u | none => true) then
      .ok { s with
        backlogs := s.backlogs.map (fun b =>
          if b.backlogId == backlogId then
            { b with
              backlogName := backlogName.getD b.backlogName,
              description := description.getD b.description,
              startDate := startDate.getD b.startDate,
              targetDate := targetDate.getD b.targetDate,
              picId := picId.getD b.picId,
              priorityId := priorityId.getD b.priorityId }
          else b) }
    else
      .error .constraint
  else
    .ok s

/-- Modelled from the spec: SQL procedure `project_manager.post_new_work` —
inserts a Work row with a fresh id and seeds its assignment relation from
`usersAdded`; fails when the parent backlog or a referenced user does not
exist. -/
def post_new_work (s : Store) (backlogId : Int) (workName : String) (priorityId : Int)
    (picId : Option Int) (description : String)
    (currentState createdBy targetDate startDate trackerId activityId : Int)
    (usersAdded : List Int) (estimatedHours : Int) : Except StoreError Store :=
  if !(s.backlogs.any (fun b => b.backlogId == backlogId)) then
    .error .constraint
  else if !(s.users.contains createdBy && usersAdded.all (fun u => s.users.contains u)) then
    .error .constraint
  else
    let wid := s.nextWorkId
    .ok { s with
      works := s.works ++
        [{ workId := wid, backlogId := backlogId, workName := workName,
           description := description, startDate := startDate, targetDate := targetDate,
           picId := picId, currentState := currentState, createdBy := createdBy,
           priorityId := priorityId, estimatedHours := estimatedHours,
           trackerId := trackerId, activityId := activityId }],
      nextWorkId := wid + 1,
      workAssignment := s.workAssignment ++ usersAdded.map (fun u => (wid, u)) }

/-- Modelled from the spec: SQL procedure `project_manager.put_alter_work` —
coalesce-updates the matching Work row and applies the remove-then-add
assignment delta; NULL arguments leave the attribute unchanged; an
unmatched id updates no row and succeeds. -/
def put_alter_work (s : Store) (workId : Int) (workName description : Option String)
    (startDate targetDate currentState picId priorityId estimatedHours trackerId activityId : Option Int)
    (usersRemoved usersAdded : List Int) : Except StoreError Store :=
  if !(s.works.any (fun w => w.workId == workId)) then
    .ok s
  else if !(usersAdded.all (fun u => s.users.contains u)) then
    .error .constraint
  else if !(match picId with | some u => s.users.contains u | none => true) then
    .error .constraint
  else
    let afterRemove := s.workAssignment.filter (fun m =>
      !(m.1 == workId && usersRemoved.contains m.2))
    let added := (usersAdded.filter
      (fun u => !(afterRemove.contains (workId, u)))).map (fun u => (workId, u))
    .ok { s with
      works := s.works.map (fun w =>
        if w.workId == workId then
          { w with
            workName := workName.getD w.workName,
            description := description.getD w.description,
            startDate := startDate.getD w.startDate,
            targetDate := targetDate.getD w.targetDate,
            currentState := currentState.getD w.currentState,
            picId := (match picId with | some u => some u | none => w.picId),
            priorityId := priorityId.getD w.priorityId,
            estimatedHours := estimatedHours.getD w.estimatedHours,
            trackerId := trackerId.getD w.trackerId,
            activityId := activityId.getD w.activityId }
        else w),
      workAssignment := afterRemove ++ added }

/-- Modelled from the spec: SQL procedure
`project_manager.alter_user_work_assignment(workId, usersRemoved, usersAdded)`
— removes then adds assignment for the work as one store call; fails when
the work does not exist or an added user id is not a known user. -/
def alter_user_work_assignment (s : Store) (workId : Int)
    (usersRemoved usersAdded : List Int) : Except StoreError Store :=
  if !(s.works.any (fun w => w.workId == workId)) then
    .error .notFound
  else if !(usersAdded.all (fun u => s.users.contains u)) then
    .error .constraint
  else
    let afterRemove := s.workAssignment.filter (fun m =>
      !(m.1 == workId && usersRemoved.contains m.2))
    let added := (usersAdded.filter
      (fun u => !(afterRemove.contains (workId, u)))).map (fun u => (workId, u))
    .ok { s with workAssignment := afterRemove ++ added }

/-- Go helper `AlterUserProjectRole(c, alterTarget)` — one `db.Exec` of
`CALL project_manager.alter_user_project_role($1,$2,$3,$4)` with
(ProjectId, RoleId, UsersRemoved, UsersAdded). -/
def AlterUserProjectRole (s : Store) (alterTarget : UserRoleChange) :
    Except StoreError Store :=
  alter_user_project_role s alterTarget.projectId alterTarget.roleId
    alterTarget.usersRemoved alterTarget.usersAdded

/-- The Go condition guarding the role loop bodies of `postNewProject` and
`putAlterProject`: `len(userRole.UsersAdded) != 0 && len(userRole.UsersRemoved) == 0`. -/
def roleDeltaEligible (userRole : UserRoleChange) : Bool :=
  userRole.usersAdded.length != 0 && userRole.usersRemoved.length == 0

/-- The role loop of Go `postNewProject`: for each eligible delta, bind its
projectId to the freshly created id and call `AlterUserProjectRole`; on the
first failure abort with the partial-failure message. -/
def postNewProjectRoles (s : Store) (projectIdTemp : Int) :
    List UserRoleChange → HandlerResult × Store × List StoreCall
  | [] => (.ok "Project created successfully", s, [])
  | userRole :: rest =>
    if roleDeltaEligible userRole then
      let bound : UserRoleChange := { userRole with projectId := projectIdTemp }
      let call := StoreCall.alter_user_project_role bound.projectId bound.roleId
        bound.usersRemoved bound.usersAdded
      match AlterUserProjectRole s bound with
      | .error _ =>
        (.badRequest "Project created successfully but Failed to set user project role", s, [call])
      | .ok s1 =>
        let out := postNewProjectRoles s1 projectIdTemp rest
        (out.1, out.2.1, call :: out.2.2)
    else
      postNewProjectRoles s projectIdTemp rest

/-- Go handler `postNewProject` (`none` body models a `BindJSON` failure). -/
def postNewProject (body : Option NewProject) (s : Store) :
    HandlerResult × Store × List StoreCall :=
  match body with
  | none => (.badRequest "Invalid input", s, [])
  | some np =>
    let call := StoreCall.post_new_project np.projectName np.description np.createdBy
      np.targetDate np.picId
    match post_new_project s np.projectName np.description np.createdBy np.targetDate np.picId with
    | .error _ => (.badRequest "Failed to create project", s, [call])
    | .ok (s1, projectIdTemp) =>
      let out := postNewProjectRoles s1 projectIdTemp np.userRoles
      (out.1, out.2.1, call :: out.2.2)

/-- The role loop of Go `putAlterProject`: identical to the
`postNewProject` loop except that the bound projectId comes from
dereferencing the request's `*ap.ProjectId`, which crashes when the field
is absent (`nil`). -/
def putAlterProjectRoles (s : Store) (projectId : Option Int) :
    List UserRoleChange → HandlerResult × Store × List StoreCall
  | [] => (.ok "Project created successfully", s, [])
  | userRole :: rest =>
    if roleDeltaEligible userRole then
      match projectId with
      | none => (.panicNilDeref, s, [])
      | some pid =>
        let bound : UserRoleChange := { userRole with projectId := pid }
        let call := StoreCall.alter_user_project_role bound.projectId bound.roleId
          bound.usersRemoved bound.usersAdded
        match AlterUserProjectRole s bound with
        | .error _ =>
          (.badRequest "Project created successfully but Failed to set user project role", s, [call])
        | .ok s1 =>
          let out := putAlterProjectRoles s1 projectId rest
          (out.1, out.2.1, call :: out.2.2)
    else
      putAlterProjectRoles s projectId rest

/-- Go handler `putAlterProject`. -/
def putAlterProject (body : Option AlterProject) (s : Store) :
    HandlerResult × Store × List StoreCall :=
  match body with
  | none => (.badRequest "Invalid input", s, [])
  | some ap =>
    let call := StoreCall.put_alter_project ap.projectId ap.projectName ap.description
      ap.targetDate ap.picId
    match put_alter_project s ap.projectId ap.projectName ap.description ap.targetDate ap.picId with
    | .error _ => (.badRequest "Failed to update project", s, [call])
    | .ok s1 =>
      let out := putAlterProjectRoles s1 ap.projectId ap.userRoles
      (out.1, out.2.1, call :: out.2.2)

/-- Go handler `checkUserCredentials`. -/
def checkUserCredentials (body : Option User) (s : Store) :
    HandlerResult × Store × List StoreCall :=
  match body with
  | none => (.badRequest "Invalid input", s, [])
  | some newUser =>
    let call := StoreCall.get_user_id_by_credentials newUser.username newUser.password
    match get_user_id_by_credentials s newUser.username newUser.password with
    | .error _ => (.badRequest "Failed to get user ID", s, [call])
    | .ok data => (.okData data, s, [call])

/-- Go handler `putUserProjectRole`. -/
def putUserProjectRole (body : Option UserRoleChange) (s : Store) :
    HandlerResult × Store × List StoreCall :=
  match body with
  | none => (.badRequest "Invalid input", s, [])
  | some alterTarget =>
    let call := StoreCall.alter_user_project_role alterTarget.projectId alterTarget.roleId
      alterTarget.usersRemoved alterTarget.usersAdded
    match AlterUserProjectRole s alterTarget with
    | .error _ => (.badRequest "Failed to alter user project role", s, [call])
    | .ok s1 => (.ok "Succesfully altered user project role", s1, [call])

/-- Go handler `postNewBacklog`. -/
def postNewBacklog (body : Option NewBacklog) (s : Store) :
    HandlerResult × Store × List StoreCall :=
  match body with
  | none => (.badRequest "Invalid input", s, [])
  | some nb =>
    let call := StoreCall.post_new_backlog nb.projectId nb.backlogName nb.description
      nb.startDate nb.targetDate nb.createdBy nb.picId nb.priorityId
    match post_new_backlog s nb.projectId nb.backlogName nb.description nb.startDate
        nb.targetDate nb.createdBy nb.picId nb.priorityId with
    | .error _ => (.badRequest "Failed to create backlog", s, [call])
    | .ok s1 => (.ok "Backlog created successfully", s1, [call])

/-- Go handler `putAlterBacklog` (defined in the source but never routed). -/
def putAlterBacklog (body : Option AlterBacklog) (s : Store) :
    HandlerResult × Store × List StoreCall :=
  match body with
  | none => (.badRequest "Invalid input", s, [])
  | some alterTarget =>
    let call := StoreCall.put_alter_backlog alterTarget.backlogId alterTarget.backlogName
      alterTarget.description alterTarget.startDate alterTarget.targetDate
      alterTarget.picId alterTarget.priorityId
    match put_alter_backlog s alterTarget.backlogId alterTarget.backlogName
        alterTarget.description alterTarget.startDate alterTarget.targetDate
        alterTarget.picId alterTarget.priorityId with
    | .error _ => (.badRequest "Failed to update backlog", s, [call])
    | .ok s1 => (.ok "Backlog updated successfully", s1, [call])

/-- Go handler `postNewWork`. -/
def postNewWork (body : Option NewWork) (s : Store) :
    HandlerResult × Store × List StoreCall :=
  match body with
  | none => (.badRequest "Invalid input", s, [])
  | some nw =>
    let call := StoreCall.post_new_work nw.backlogId nw.workName nw.priorityId nw.picId
      nw.description nw.currentState nw.createdBy nw.targetDate nw.startDate
      nw.trackerId nw.activityId nw.usersAdded nw.estimatedHours
    match post_new_work s nw.backlogId nw.workName nw.priorityId nw.picId nw.description
        nw.currentState nw.createdBy nw.targetDate nw.startDate nw.trackerId nw.activityId
        nw.usersAdded nw.estimatedHours with
    | .error _ => (.badRequest "Failed to create work", s, [call])
    | .ok s1 => (.ok "Work created successfully", s1, [call])

/-- Go handler `putAlterWork` (its bind-failure message and 500-level store
failure differ from the other handlers). -/
def putAlterWork (body : Option AlterWork) (s : Store) :
    HandlerResult × Store × List StoreCall :=
  match body with
  | none => (.badRequest "Invalid input format", s, [])
  | some alterTarget =>
    let call := StoreCall.put_alter_work alterTarget.workId alterTarget.workName
      alterTarget.description alterTarget.startDate alterTarget.targetDate
      alterTarget.currentState alterTarget.picId alterTarget.priorityId
      alterTarget.estimatedHours alterTarget.trackerId alterTarget.activityId
      alterTarget.usersRemoved alterTarget.usersAdded
    match put_alter_work s alterTarget.workId alterTarget.workName alterTarget.description
        alterTarget.startDate alterTarget.targetDate alterTarget.currentState
        alterTarget.picId alterTarget.priorityId alterTarget.estimatedHours
        alterTarget.trackerId alterTarget.activityId alterTarget.usersRemoved
        alterTarget.usersAdded with
    | .error _ => (.internalError "Failed to alter work details", s, [call])
    | .ok s1 => (.ok "Successfully altered work assignment", s1, [call])

/-- Go handler `putAlterUserWorkAssignment`. -/
def putAlterUserWorkAssignment (body : Option UserWorkChange) (s : Store) :
    HandlerResult × Store × List StoreCall :=
  match body with
  | none => (.badRequest "Invalid input", s, [])
  | some alterTarget =>
    let call := StoreCall.alter_user_work_assignment alterTarget.workId
      alterTarget.usersRemoved alterTarget.usersAdded
    match alter_user_work_assignment s alterTarget.workId alterTarget.usersRemoved
        alterTarget.usersAdded with
    | .error _ => (.badRequest "Failed to alter user work assignment", s, [call])
    | .ok s1 => (.ok "Succesfully altered user work assignment", s1, [call])

/-- HTTP method of a registered route. -/
inductive HttpMethod where
  | GET
  | POST
  | PUT
  deriving DecidableEq, Repr

/-- The handler functions defined in `src/api/index.go`, named for the
route table. -/
inductive HandlerName where
  | checkUserCredentials
  | postNewProject
  | getProjects
  | putAlterProject
  | getUserProjectRoles
  | putUserProjectRole
  | getProjectBacklogs
  | postNewBacklog
  | putAlterBacklog
  | postNewWork
  | getBacklogWorks
  | putAlterWork
  | getUserTodoList
  | getUserWorkAssignment
  | putAlterUserWorkAssignment
  | getUsernames
  | getProjectAssignedUsernames
  | getTrackerActivityPriorityStateList
  deriving DecidableEq, Repr

/-- Go `registerRoutes`: the exact route table registered on the `/api`
group, in source order. -/
def registerRoutes : List (HttpMethod × String × HandlerName) :=
  [ (.POST, "/login", .checkUserCredentials),
    (.POST, "/postNewProject", .postNewProject),
    (.GET, "/getProjects", .getProjects),
    (.PUT, "/putAlterProject", .putAlterProject),
    (.GET, "/getUserProjectRoles", .getUserProjectRoles),
    (.PUT, "/putUserProjectRole", .putUserProjectRole),
    (.GET, "/getProjectBacklogs", .getProjectBacklogs),
    (.POST, "/postNewBacklog", .postNewBacklog),
    (.POST, "/postNewWork", .postNewWork),
    (.GET, "/getBacklogWorks", .getBacklogWorks),
    (.PUT, "/putAlterWork", .putAlterWork),
    (.GET, "/getUserTodoList", .getUserTodoList),
    (.GET, "/getUserWorkAssignment", .getUserWorkAssignment),
    (.PUT, "/putAlterUserWorkAssignment", .putAlterUserWorkAssignment),
    (.GET, "/getUsernames", .getUsernames),
    (.GET, "/getProjectAssignedUsernames", .getProjectAssignedUsernames),
    (.GET, "/getStartBundle", .getTrackerActivityPriorityStateList) ]

/-! ### Helper lemmas -/

theorem find?_map_ite {α : Type} (key : α → Int) (upd : α → α) (pid : Int)
    (hupd : ∀ q, key (upd q) = key q) (l : List α) :
    ∀ p : α, l.find? (fun q => key q == pid) = some p →
      (l.map (fun q => if key q == pid then upd q else q)).find? (fun q => key q == pid) =
        some (upd p) := by
  induction l with
  | nil => intro p h; simp [List.find?] at h
  | cons a l ih =>
    intro p h
    by_cases hb : (key a == pid) = true
    · rw [@List.find?_cons_of_pos _ (fun q => key q == pid) a l hb] at h
      injection h with h
      subst h
      have hb' : (key (upd a) == pid) = true := by
        rw [hupd]; exact hb
      simp only [List.map_cons, if_pos hb]
      exact @List.find?_cons_of_pos _ (fun q => key q == pid) (upd a)
        (l.map (fun q => if key q == pid then upd q else q)) hb'
    · rw [@List.find?_cons_of_neg _ (fun q => key q == pid) a l hb] at h
      simp only [List.map_cons, if_neg hb]
      rw [@List.find?_cons_of_neg _ (fun q => key q == pid) a
        (l.map (fun q => if key q == pid then upd q else q)) hb]
      exact ih p h

theorem alter_user_project_role_ok_projects (s : Store) (pid rid : Int) (ur ua : List Int)
    (s' : Store) (h : alter_user_project_role s pid rid ur ua = .ok s') :
    s'.projects = s.projects := by
  unfold alter_user_project_role at h
  split at h
  · simp at h
  · split at h
    · simp at h
    · injection h with h
      subst h
      rfl

theorem putAlterProjectRoles_projects (pid? : Option Int) (urs : List UserRoleChange) :
    ∀ s : Store, ((putAlterProjectRoles s pid? urs).2.1).projects = s.projects := by
  induction urs with
  | nil => intro s; rfl
  | cons ur rest ih =>
    intro s
    by_cases he : roleDeltaEligible ur = true
    · cases pid? with
      | none => simp [putAlterProjectRoles, he]
      | some pid =>
        cases hA : AlterUserProjectRole s { ur with projectId := pid } with
        | error e => simp [putAlterProjectRoles, he, hA]
        | ok s1 =>
          have hp : s1.projects = s.projects :=
            alter_user_project_role_ok_projects _ _ _ _ _ _ hA
          simp [putAlterProjectRoles, he, hA, ih s1, hp]
    · simp only [putAlterProjectRoles, if_neg he]
      exact ih s

theorem postNewProjectRoles_ok_trace (pid : Int) (urs : List UserRoleChange) :
    ∀ (s : Store) (m : String), (postNewProjectRoles s pid urs).1 = .ok m →
      (postNewProjectRoles s pid urs).2.2 =
        (urs.filter roleDeltaEligible).map
          (fun ur => StoreCall.alter_user_project_role pid ur.roleId ur.usersRemoved ur.usersAdded) := by
  induction urs with
  | nil => intro s m _; rfl
  | cons ur rest ih =>
    intro s m h
    by_cases he : roleDeltaEligible ur = true
    · cases hA : AlterUserProjectRole s { ur with projectId := pid } with
      | error e =>
        exfalso
        simp [postNewProjectRoles, he, hA] at h
      | ok s1 =>
        simp only [postNewProjectRoles, if_pos he, hA] at h ⊢
        rw [List.filter_cons, if_pos he, List.map_cons]
        rw [ih s1 m h]
    · simp only [postNewProjectRoles, if_neg he] at h ⊢
      rw [List.filter_cons, if_neg he]
      exact ih s m h

theorem postNewProjectRoles_trace_prefix (pid : Int) (urs : List UserRoleChange) :
    ∀ s : Store, ∃ k, (postNewProjectRoles s pid urs).2.2 =
      ((urs.filter roleDeltaEligible).take k).map
        (fun ur => StoreCall.alter_user_project_role pid ur.roleId ur.usersRemoved ur.usersAdded) := by
  induction urs with
  | nil => intro s; exact ⟨0, rfl⟩
  | cons ur rest ih =>
    intro s
    by_cases he : roleDeltaEligible ur = true
    · cases hA : AlterUserProjectRole s { ur with projectId := pid } with
      | error e =>
        refine ⟨1, ?_⟩
        simp [postNewProjectRoles, he, hA, List.filter_cons]
      | ok s1 =>
        obtain ⟨k, hk⟩ := ih s1
        refine ⟨k + 1, ?_⟩
        simp only [postNewProjectRoles, if_pos he, hA]
        rw [List.filter_cons, if_pos he, List.take_succ_cons, List.map_cons]
        rw [hk]
    · obtain ⟨k, hk⟩ := ih s
      refine ⟨k, ?_⟩
      simp only [postNewProjectRoles, if_neg he]
      rw [List.filter_cons, if_neg he]
      exact hk

theorem postNewProjectRoles_badRequest_msg (pid : Int) (urs : List UserRoleChange) :
    ∀ (s : Store) (m : String), (postNewProjectRoles s pid urs).1 = .badRequest m →
      m = "Project created successfully but Failed to set user project role" := by
  induction urs with
  | nil => intro s m h; simp [postNewProjectRoles] at h
  | cons ur rest ih =>
    intro s m h
    by_cases he : roleDeltaEligible ur = true
    · cases hA : AlterUserProjectRole s { ur with projectId := pid } with
      | error e =>
        simp only [postNewProjectRoles, if_pos he, hA] at h
        injection h with h
        exact h.symm
      | ok s1 =>
        simp only [postNewProjectRoles, if_pos he, hA] at h
        exact ih s1 m h
    · simp only [postNewProjectRoles, if_neg he] at h
      exact ih s m h

theorem postNewProjectRoles_skip_all (pid : Int) (urs : List UserRoleChange) :
    ∀ s : Store, urs.filter roleDeltaEligible = [] →
      postNewProjectRoles s pid urs = (.ok "Project created successfully", s, []) := by
  induction urs with
  | nil => intro s _; rfl
  | cons ur rest ih =>
    intro s h
    rw [List.filter_cons] at h
    by_cases he : roleDeltaEligible ur = true
    · rw [if_pos he] at h
      exact absurd h (by simp)
    · rw [if_neg he] at h
      simp only [postNewProjectRoles, if_neg he]
      exact ih s h

theorem putAlterProjectRoles_badRequest_msg (pid? : Option Int) (urs : List UserRoleChange) :
    ∀ (s : Store) (m : String), (putAlterProjectRoles s pid? urs).1 = .badRequest m →
      m = "Project created successfully but Failed to set user project role" := by
  induction urs with
  | nil => intro s m h; simp [putAlterProjectRoles] at h
  | cons ur rest ih =>
    intro s m h
    by_cases he : roleDeltaEligible ur = true
    · cases pid? with
      | none => simp [putAlterProjectRoles, he] at h
      | some pid =>
        cases hA : AlterUserProjectRole s { ur with projectId := pid } with
        | error e =>
          simp only [putAlterProjectRoles, if_pos he, hA] at h
          injection h with h
          exact h.symm
        | ok s1 =>
          simp only [putAlterProjectRoles, if_pos he, hA] at h
          exact ih s1 m h
    · simp only [putAlterProjectRoles, if_neg he] at h
      exact ih s m h

theorem putAlterProjectRoles_none_panic (urs : List UserRoleChange) :
    ∀ s : Store, (∃ ur ∈ urs, roleDeltaEligible ur = true) →
      (putAlterProjectRoles s none urs).1 = .panicNilDeref := by
  induction urs with
  | nil =>
    intro s h
    obtain ⟨ur, hm, _⟩ := h
    cases hm
  | cons ur rest ih =>
    intro s h
    by_cases he : roleDeltaEligible ur = true
    · simp [putAlterProjectRoles, he]
    · have hrest : ∃ v ∈ rest, roleDeltaEligible v = true := by
        obtain ⟨u, hm, hu⟩ := h
        rcases List.mem_cons.mp hm with rfl | hm'
        · exact absurd hu he
        · exact ⟨u, hm', hu⟩
      simp only [putAlterProjectRoles, if_neg he]
      exact ih s hrest

/-! ### Concrete sample data for witnesses and counterexamples -/

/-- A small store with four users and no rows. -/
def sampleStore : Store :=
  { users := [1, 2, 7, 9], credentials := [], projects := [], nextProjectId := 1,
    membership := [], backlogs := [], nextBacklogId := 1, works := [], nextWorkId := 1,
    workAssignment := [] }

/-- A sample stored Project row. -/
def sampleProject : Project :=
  { projectId := 1, projectName := "P", description := "d0", createdBy := 1,
    startDate := 10, targetDate := 5, picId := 1 }

/-- A sample stored Backlog row. -/
def sampleBacklog : Backlog :=
  { backlogId := 1, projectId := 1, backlogName := "B", description := "d0",
    startDate := 10, targetDate := 20, createdBy := 1, picId := 1, priorityId := 3 }

/-- A sample stored Work row. -/
def sampleWork : Work :=
  { workId := 1, backlogId := 1, workName := "W", description := "d0", startDate := 10,
    targetDate := 20, picId := none, currentState := 0, createdBy := 1, priorityId := 3,
    estimatedHours := 8, trackerId := 1, activityId := 1 }

/-- The sample store populated with one Project, Backlog and Work row. -/
def sampleStoreFull : Store :=
  { sampleStore with
    projects := [sampleProject], backlogs := [sampleBacklog], works := [sampleWork] }

/-! ### Claim theorems -/

/-- C5: when the parent project creation fails at the store, `postNewProject`
reports the creation error, leaves the store exactly as it was (nothing
persisted), and its store-call trace holds the single creation attempt and
no role-reconciliation call. -/
theorem postNewProject_creation_failure (s : Store) (np : NewProject) (e : StoreError)
    (hfail : post_new_project s np.projectName np.description np.createdBy np.targetDate
      np.picId = .error e) :
    postNewProject (some np) s =
      (.badRequest "Failed to create project", s,
       [StoreCall.post_new_project np.projectName np.description np.createdBy np.targetDate
          np.picId]) := by
  simp [postNewProject, hfail]

theorem postNewProject_creation_failure_witness :
    postNewProject
        (some { projectName := "P", description := "", createdBy := 1, startDate := 0,
                targetDate := 5, picId := 1,
                userRoles := [{ roleId := 2, projectId := 0, usersAdded := [7],
                                usersRemoved := [] }] })
        { sampleStore with users := [] } =
      (.badRequest "Failed to create project", { sampleStore with users := [] },
       [StoreCall.post_new_project "P" "" 1 5 1]) :=
  postNewProject_creation_failure { sampleStore with users := [] } _ .constraint rfl

/-- C8: for every JSON-binding handler, a binding failure is rejected with
the handler's validation message, the store is returned untouched, and the
trace of store calls is empty. -/
theorem bind_failure_touches_no_store (s : Store) :
    checkUserCredentials none s = (.badRequest "Invalid input", s, []) ∧
    postNewProject none s = (.badRequest "Invalid input", s, []) ∧
    putAlterProject none s = (.badRequest "Invalid input", s, []) ∧
    putUserProjectRole none s = (.badRequest "Invalid input", s, []) ∧
    postNewBacklog none s = (.badRequest "Invalid input", s, []) ∧
    putAlterBacklog none s = (.badRequest "Invalid input", s, []) ∧
    postNewWork none s = (.badRequest "Invalid input", s, []) ∧
    putAlterWork none s = (.badRequest "Invalid input format", s, []) ∧
    putAlterUserWorkAssignment none s = (.badRequest "Invalid input", s, []) :=
  ⟨rfl, rfl, rfl, rfl, rfl, rfl, rfl, rfl, rfl⟩

theorem bind_failure_touches_no_store_witness :
    postNewProject none sampleStore = (.badRequest "Invalid input", sampleStore, []) ∧
    putAlterWork none sampleStore = (.badRequest "Invalid input format", sampleStore, []) :=
  ⟨(bind_failure_touches_no_store sampleStore).2.1,
   (bind_failure_touches_no_store sampleStore).2.2.2.2.2.2.2.1⟩

/-- C9 (route table audit): every other operation of the spec's operation
surface is reachable through `registerRoutes`, but no registered route
names `putAlterBacklog`, so `updateBacklog(delta)` is not a callable
endpoint of the application. -/
theorem registerRoutes_missing_updateBacklog :
    ((registerRoutes.map (fun r => r.2.2)).contains HandlerName.putAlterBacklog = false) ∧
    ((registerRoutes.map (fun r => r.2.2)).contains HandlerName.checkUserCredentials = true) ∧
    ((registerRoutes.map (fun r => r.2.2)).contains HandlerName.postNewProject = true) ∧
    ((registerRoutes.map (fun r => r.2.2)).contains HandlerName.getProjects = true) ∧
    ((registerRoutes.map (fun r => r.2.2)).contains HandlerName.putAlterProject = true) ∧
    ((registerRoutes.map (fun r => r.2.2)).contains HandlerName.getUserProjectRoles = true) ∧
    ((registerRoutes.map (fun r => r.2.2)).contains HandlerName.putUserProjectRole = true) ∧
    ((registerRoutes.map (fun r => r.2.2)).contains HandlerName.getProjectBacklogs = true) ∧
    ((registerRoutes.map (fun r => r.2.2)).contains HandlerName.postNewBacklog = true) ∧
    ((registerRoutes.map (fun r => r.2.2)).contains HandlerName.postNewWork = true) ∧
    ((registerRoutes.map (fun r => r.2.2)).contains HandlerName.getBacklogWorks = true) ∧
    ((registerRoutes.map (fun r => r.2.2)).contains HandlerName.putAlterWork = true) ∧
    ((registerRoutes.map (fun r => r.2.2)).contains HandlerName.getUserTodoList = true) ∧
    ((registerRoutes.map (fun r => r.2.2)).contains HandlerName.getUserWorkAssignment = true) ∧
    ((registerRoutes.map (fun r => r.2.2)).contains HandlerName.putAlterUserWorkAssignment = true) ∧
    ((registerRoutes.map (fun r => r.2.2)).contains HandlerName.getUsernames = true) ∧
    ((registerRoutes.map (fun r => r.2.2)).contains HandlerName.getProjectAssignedUsernames = true) ∧
    ((registerRoutes.map (fun r => r.2.2)).contains
      HandlerName.getTrackerActivityPriorityStateList = true) := by
  decide

/-- C10: a `putAlterProject` request whose ProjectId is absent and whose
UserRoles list contains an eligible delta (non-empty usersAdded, empty
usersRemoved) dereferences the absent pointer and crashes instead of
failing with the validation error. -/
theorem putAlterProject_nil_projectId_crashes (s : Store) (ap : AlterProject)
    (hnil : ap.projectId = none)
    (helig : ∃ ur ∈ ap.userRoles, roleDeltaEligible ur = true) :
    (putAlterProject (some ap) s).1 = .panicNilDeref ∧
    (putAlterProject (some ap) s).1 ≠ .badRequest "Invalid input" := by
  have hupd : put_alter_project s ap.projectId ap.projectName ap.description ap.targetDate
      ap.picId = .ok s := by
    rw [hnil]; rfl
  have h1 : (putAlterProject (some ap) s).1 =
      (putAlterProjectRoles s ap.projectId ap.userRoles).1 := by
    simp [putAlterProject, hupd]
  have hp := putAlterProjectRoles_none_panic ap.userRoles s helig
  constructor
  · rw [h1, hnil]; exact hp
  · rw [h1, hnil, hp]; simp

theorem putAlterProject_nil_projectId_crashes_witness :
    (putAlterProject
        (some { projectId := none, projectName := none, description := none, startDate := none,
                targetDate := none, picId := none,
                userRoles := [{ roleId := 2, projectId := 0, usersAdded := [7],
                                usersRemoved := [] }] })
        sampleStoreFull).1 = .panicNilDeref ∧
    (putAlterProject
        (some { projectId := none, projectName := none, description := none, startDate := none,
                targetDate := none, picId := none,
                userRoles := [{ roleId := 2, projectId := 0, usersAdded := [7],
                                usersRemoved := [] }] })
        sampleStoreFull).1 ≠ .badRequest "Invalid input" :=
  putAlterProject_nil_projectId_crashes sampleStoreFull _ rfl (by decide)

/-- C4 (amended): reconciling an empty delta through `putUserProjectRole`
succeeds and leaves the store (hence membership) exactly unchanged, but it
does perform one store round trip, recorded in the trace. -/
theorem putUserProjectRole_empty_delta_noop (s : Store) (t : UserRoleChange)
    (ha : t.usersAdded = []) (hr : t.usersRemoved = [])
    (hproj : s.projects.any (fun p => p.projectId == t.projectId) = true) :
    putUserProjectRole (some t) s =
      (.ok "Succesfully altered user project role", s,
       [StoreCall.alter_user_project_role t.projectId t.roleId [] []]) := by
  have hfil : (s.membership.filter (fun m =>
      !(m.1 == t.projectId && m.2.1 == t.roleId && ([] : List Int).contains m.2.2))) =
      s.membership :=
    List.filter_eq_self.mpr (fun a _ => by simp)
  have hnoop : AlterUserProjectRole s t = .ok s := by
    unfold AlterUserProjectRole alter_user_project_role
    rw [ha, hr, hproj]
    simp only [Bool.not_true, List.all_nil, Bool.not_false, if_false, if_true]
    rw [hfil]
    simp
  simp [putUserProjectRole, hnoop, ha, hr]

theorem putUserProjectRole_empty_delta_noop_witness :
    putUserProjectRole (some { roleId := 5, projectId := 1, usersAdded := [], usersRemoved := [] })
        sampleStoreFull =
      (.ok "Succesfully altered user project role", sampleStoreFull,
       [StoreCall.alter_user_project_role 1 5 [] []]) :=
  putUserProjectRole_empty_delta_noop sampleStoreFull _ rfl rfl (by decide)

/-- C4 counterexample to the claim as stated: the empty delta does perform
a store round trip — the run's trace is the one-element call list, not
empty. -/
theorem putUserProjectRole_empty_delta_store_roundtrip :
    (putUserProjectRole (some { roleId := 5, projectId := 1, usersAdded := [],
                                usersRemoved := [] }) sampleStoreFull).2.2 =
      [StoreCall.alter_user_project_role 1 5 [] []] ∧
    (putUserProjectRole (some { roleId := 5, projectId := 1, usersAdded := [],
                                usersRemoved := [] }) sampleStoreFull).2.2.length = 1 := by
  constructor
  · rfl
  · rfl

/-- C2: during composite project creation, a role delta is applied exactly
when its usersAdded is non-empty and its usersRemoved is empty: a fully
successful run reconciles precisely the eligible deltas in order; every
run reconciles only (a prefix of) the eligible deltas; and a payload whose
deltas are all ineligible completes successfully with no reconcile call at
all — skipping is not an error. -/
theorem postNewProject_applies_iff_eligible (s s1 : Store) (np : NewProject) (pid : Int)
    (hcreate : post_new_project s np.projectName np.description np.createdBy np.targetDate
      np.picId = .ok (s1, pid)) :
    (∀ m, (postNewProject (some np) s).1 = .ok m →
      (postNewProject (some np) s).2.2 =
        StoreCall.post_new_project np.projectName np.description np.createdBy np.targetDate
            np.picId ::
          (np.userRoles.filter roleDeltaEligible).map
            (fun ur => StoreCall.alter_user_project_role pid ur.roleId ur.usersRemoved
              ur.usersAdded)) ∧
    (∃ k, (postNewProject (some np) s).2.2 =
        StoreCall.post_new_project np.projectName np.description np.createdBy np.targetDate
            np.picId ::
          ((np.userRoles.filter roleDeltaEligible).take k).map
            (fun ur => StoreCall.alter_user_project_role pid ur.roleId ur.usersRemoved
              ur.usersAdded)) ∧
    (np.userRoles.filter roleDeltaEligible = [] →
      postNewProject (some np) s =
        (.ok "Project created successfully", s1,
         [StoreCall.post_new_project np.projectName np.description np.createdBy np.targetDate
            np.picId])) := by
  refine ⟨?_, ?_, ?_⟩
  · intro m h
    simp only [postNewProject, hcreate] at h ⊢
    rw [postNewProjectRoles_ok_trace pid np.userRoles s1 m h]
  · obtain ⟨k, hk⟩ := postNewProjectRoles_trace_prefix pid np.userRoles s1
    refine ⟨k, ?_⟩
    simp only [postNewProject, hcreate]
    rw [hk]
  · intro hnil
    simp only [postNewProject, hcreate]
    rw [postNewProjectRoles_skip_all pid np.userRoles s1 hnil]

theorem postNewProject_applies_iff_eligible_witness :
    (postNewProject
        (some { projectName := "P", description := "", createdBy := 1, startDate := 0,
                targetDate := 5, picId := 1,
                userRoles := [{ roleId := 2, projectId := 0, usersAdded := [7, 9],
                                usersRemoved := [] },
                              { roleId := 3, projectId := 0, usersAdded := [],
                                usersRemoved := [3] }] })
        sampleStore).2.2 =
      StoreCall.post_new_project "P" "" 1 5 1 ::
        (([{ roleId := 2, projectId := 0, usersAdded := [7, 9], usersRemoved := [] },
           { roleId := 3, projectId := 0, usersAdded := [], usersRemoved := [3] }] :
            List UserRoleChange).filter roleDeltaEligible).map
          (fun ur => StoreCall.alter_user_project_role 1 ur.roleId ur.usersRemoved
            ur.usersAdded) :=
  (postNewProject_applies_iff_eligible sampleStore
      { sampleStore with
        projects := [{ projectId := 1, projectName := "P", description := "", createdBy := 1,
                       startDate := 0, targetDate := 5, picId := 1 }],
        nextProjectId := 2 }
      { projectName := "P", description := "", createdBy := 1, startDate := 0,
        targetDate := 5, picId := 1,
        userRoles := [{ roleId := 2, projectId := 0, usersAdded := [7, 9],
                        usersRemoved := [] },
                      { roleId := 3, projectId := 0, usersAdded := [],
                        usersRemoved := [3] }] }
      1 rfl).1 "Project created successfully" rfl

/-- C7: every role-reconciliation call issued by `postNewProject` targets
the ProjectId freshly returned by the store, whatever projectId the
request's delta carried. -/
theorem postNewProject_binds_created_projectId (s s1 : Store) (np : NewProject) (pid : Int)
    (hcreate : post_new_project s np.projectName np.description np.createdBy np.targetDate
      np.picId = .ok (s1, pid))
    (c : StoreCall) (hc : c ∈ (postNewProject (some np) s).2.2)
    (pj r : Int) (urem uadd : List Int)
    (hform : c = StoreCall.alter_user_project_role pj r urem uadd) :
    pj = pid := by
  simp only [postNewProject, hcreate] at hc
  obtain ⟨k, hk⟩ := postNewProjectRoles_trace_prefix pid np.userRoles s1
  rw [hk] at hc
  rcases List.mem_cons.mp hc with hcall0 | hmem
  · rw [hform] at hcall0
    cases hcall0
  · obtain ⟨ur, _, hur⟩ := List.mem_map.mp hmem
    rw [hform] at hur
    injection hur with h1 _ _ _
    exact h1.symm

theorem postNewProject_binds_created_projectId_witness :
    StoreCall.alter_user_project_role 1 2 [] [7, 9] ∈
      (postNewProject
        (some { projectName := "P", description := "", createdBy := 1, startDate := 0,
                targetDate := 5, picId := 1,
                userRoles := [{ roleId := 2, projectId := 42, usersAdded := [7, 9],
                                usersRemoved := [] }] })
        sampleStore).2.2 ∧
    (1 : Int) = 1 :=
  ⟨by decide,
   postNewProject_binds_created_projectId sampleStore
     { sampleStore with
       projects := [{ projectId := 1, projectName := "P", description := "", createdBy := 1,
                      startDate := 0, targetDate := 5, picId := 1 }],
       nextProjectId := 2 }
     { projectName := "P", description := "", createdBy := 1, startDate := 0,
       targetDate := 5, picId := 1,
       userRoles := [{ roleId := 2, projectId := 42, usersAdded := [7, 9],
                       usersRemoved := [] }] }
     1 rfl (StoreCall.alter_user_project_role 1 2 [] [7, 9]) (by decide) 1 2 [] [7, 9] rfl⟩

/-- C1 (amended): when the parent creation succeeds and a role
reconciliation then fails, `postNewProject` reports a fixed partial-failure
message that is distinguishable from the plain creation failure, the
binding failure and every full-success response — but it is a constant
string, so it carries neither the created ProjectId nor the identity of
the failed role grant. -/
theorem postNewProject_partial_failure_distinct_message (s s1 s2 : Store) (np : NewProject)
    (pid : Int) (m : String) (tr : List StoreCall)
    (hcreate : post_new_project s np.projectName np.description np.createdBy np.targetDate
      np.picId = .ok (s1, pid))
    (hroles : postNewProjectRoles s1 pid np.userRoles = (.badRequest m, s2, tr)) :
    (postNewProject (some np) s).1 = .badRequest m ∧
    m = "Project created successfully but Failed to set user project role" ∧
    m ≠ "Failed to create project" ∧
    m ≠ "Invalid input" ∧
    ∀ msg, (postNewProject (some np) s).1 ≠ .ok msg := by
  have h1 : (postNewProject (some np) s).1 = .badRequest m := by
    simp [postNewProject, hcreate, hroles]
  have hm := postNewProjectRoles_badRequest_msg pid np.userRoles s1 m (by rw [hroles])
  refine ⟨h1, hm, ?_, ?_, ?_⟩
  · rw [hm]; decide
  · rw [hm]; decide
  · intro msg hcon
    rw [h1] at hcon
    cases hcon

/-- A creation payload whose single role delta adds the unknown user 99,
so the reconciliation step fails after the parent is created; the delta
carries roleId 5. -/
def npRoleFail5 : NewProject :=
  { projectName := "P", description := "", createdBy := 1, startDate := 0, targetDate := 5,
    picId := 1,
    userRoles := [{ roleId := 5, projectId := 0, usersAdded := [99], usersRemoved := [] }] }

/-- Same failing payload with roleId 6 instead of 5. -/
def npRoleFail6 : NewProject :=
  { projectName := "P", description := "", createdBy := 1, startDate := 0, targetDate := 5,
    picId := 1,
    userRoles := [{ roleId := 6, projectId := 0, usersAdded := [99], usersRemoved := [] }] }

theorem postNewProject_partial_failure_distinct_message_witness :
    (postNewProject (some npRoleFail5) sampleStore).1 =
      .badRequest "Project created successfully but Failed to set user project role" ∧
    "Project created successfully but Failed to set user project role" ≠
      "Failed to create project" :=
  have h := postNewProject_partial_failure_distinct_message sampleStore
    { sampleStore with
      projects := [{ projectId := 1, projectName := "P", description := "", createdBy := 1,
                     startDate := 0, targetDate := 5, picId := 1 }],
      nextProjectId := 2 }
    { sampleStore with
      projects := [{ projectId := 1, projectName := "P", description := "", createdBy := 1,
                     startDate := 0, targetDate := 5, picId := 1 }],
      nextProjectId := 2 }
    npRoleFail5 1 "Project created successfully but Failed to set user project role"
    [StoreCall.alter_user_project_role 1 5 [] [99]] rfl rfl
  ⟨h.1, h.2.2.1⟩

/-- C1 counterexample to the claim as stated: two partial-failure runs that
create different ProjectIds (1 and 2) and fail on different role grants
(roleId 5 and roleId 6) return the identical response, so the outcome
reported to the caller carries neither the created ProjectId nor the
identity of the failed role grant. -/
theorem postNewProject_partial_message_counterexample :
    (postNewProject (some npRoleFail5) sampleStore).1 =
      HandlerResult.badRequest
        "Project created successfully but Failed to set user project role" ∧
    (postNewProject (some npRoleFail6) { sampleStore with nextProjectId := 2 }).1 =
      (postNewProject (some npRoleFail5) sampleStore).1 ∧
    (postNewProject (some npRoleFail5) sampleStore).2.2 =
      [StoreCall.post_new_project "P" "" 1 5 1,
       StoreCall.alter_user_project_role 1 5 [] [99]] ∧
    (postNewProject (some npRoleFail6) { sampleStore with nextProjectId := 2 }).2.2 =
      [StoreCall.post_new_project "P" "" 1 5 1,
       StoreCall.alter_user_project_role 2 6 [] [99]] :=
  ⟨rfl, rfl, rfl, rfl⟩

/-- C6: when the Project field update of `putAlterProject` succeeds at the
store and a subsequent role reconciliation fails, the field update stays
committed (the final store's projects are exactly the updated ones — no
rollback) and the failure is reported with the very message the
partial-creation path of `postNewProject` reports. -/
theorem putAlterProject_partial_failure_no_rollback (s s1 s2 : Store) (ap : AlterProject)
    (m : String) (tr : List StoreCall)
    (hupd : put_alter_project s ap.projectId ap.projectName ap.description ap.targetDate
      ap.picId = .ok s1)
    (hroles : putAlterProjectRoles s1 ap.projectId ap.userRoles = (.badRequest m, s2, tr)) :
    (putAlterProject (some ap) s).1 = .badRequest m ∧
    (putAlterProject (some ap) s).2.1 = s2 ∧
    s2.projects = s1.projects ∧
    m = "Project created successfully but Failed to set user project role" ∧
    (∀ (s3 s4 s5 : Store) (np : NewProject) (pid : Int) (m2 : String) (tr2 : List StoreCall),
      post_new_project s3 np.projectName np.description np.createdBy np.targetDate
        np.picId = .ok (s4, pid) →
      postNewProjectRoles s4 pid np.userRoles = (.badRequest m2, s5, tr2) →
      (postNewProject (some np) s3).1 = .badRequest m) := by
  have h1 : (putAlterProject (some ap) s).1 = .badRequest m := by
    simp [putAlterProject, hupd, hroles]
  have h2 : (putAlterProject (some ap) s).2.1 = s2 := by
    simp [putAlterProject, hupd, hroles]
  have hm := putAlterProjectRoles_badRequest_msg ap.projectId ap.userRoles s1 m
    (by rw [hroles])
  have h3 : s2.projects = s1.projects := by
    have hpres := putAlterProjectRoles_projects ap.projectId ap.userRoles s1
    rw [hroles] at hpres
    exact hpres
  refine ⟨h1, h2, h3, hm, ?_⟩
  intro s3 s4 s5 np pid m2 tr2 hc hr
  have hm2 := postNewProjectRoles_badRequest_msg pid np.userRoles s4 m2 (by rw [hr])
  have hres : (postNewProject (some np) s3).1 = .badRequest m2 := by
    simp [postNewProject, hc, hr]
  rw [hres, hm2, hm]

/-- The `putAlterProject` payload used to witness C6: it renames project 1
and then fails reconciling a grant for the unknown user 99. -/
def apRenameFail : AlterProject :=
  { projectId := some 1, projectName := some "N", description := none, startDate := none,
    targetDate := none, picId := none,
    userRoles := [{ roleId := 5, projectId := 0, usersAdded := [99], usersRemoved := [] }] }

theorem putAlterProject_partial_failure_no_rollback_witness :
    (putAlterProject (some apRenameFail) sampleStoreFull).1 =
      .badRequest "Project created successfully but Failed to set user project role" ∧
    (putAlterProject (some apRenameFail) sampleStoreFull).2.1 =
      { sampleStoreFull with projects := [{ sampleProject with projectName := "N" }] } ∧
    ({ sampleStoreFull with
       projects := [{ sampleProject with projectName := "N" }] } : Store).projects =
      ({ sampleStoreFull with
         projects := [{ sampleProject with projectName := "N" }] } : Store).projects :=
  have h := putAlterProject_partial_failure_no_rollback sampleStoreFull
    { sampleStoreFull with projects := [{ sampleProject with projectName := "N" }] }
    { sampleStoreFull with projects := [{ sampleProject with projectName := "N" }] }
    apRenameFail "Project created successfully but Failed to set user project role"
    [StoreCall.alter_user_project_role 1 5 [] [99]] rfl rfl
  ⟨h.1, h.2.1, h.2.2.1 ▸ rfl⟩

/-- C3 (amended): the partial-update handlers realise the field mask —
fields absent from the payload leave the stored attribute unchanged, and
present fields are written — for every updatable field of Backlog and
Work, and for the transmitted Project fields (projectName, description,
targetDate, picId).  `putAlterProject` never transmits the payload's
startDate, so the stored startDate stays unchanged whether or not the
payload supplies one. -/
theorem partial_update_field_mask :
    (∀ (s : Store) (ap : AlterProject) (pid : Int) (p : Project),
      ap.projectId = some pid →
      s.projects.find? (fun q => q.projectId == pid) = some p →
      (match ap.picId with | some u => s.users.contains u | none => true) = true →
      ((putAlterProject (some ap) s).2.1).projects.find? (fun q => q.projectId == pid) =
        some { p with
               projectName := ap.projectName.getD p.projectName,
               description := ap.description.getD p.description,
               targetDate := ap.targetDate.getD p.targetDate,
               picId := ap.picId.getD p.picId }) ∧
    (∀ (s : Store) (ab : AlterBacklog) (b : Backlog),
      s.backlogs.find? (fun q => q.backlogId == ab.backlogId) = some b →
      (match ab.picId with | some u => s.users.contains u | none => true) = true →
      ((putAlterBacklog (some ab) s).2.1).backlogs.find?
          (fun q => q.backlogId == ab.backlogId) =
        some { b with
               backlogName := ab.backlogName.getD b.backlogName,
               description := ab.description.getD b.description,
               startDate := ab.startDate.getD b.startDate,
               targetDate := ab.targetDate.getD b.targetDate,
               picId := ab.picId.getD b.picId,
               priorityId := ab.priorityId.getD b.priorityId }) ∧
    (∀ (s : Store) (aw : AlterWork) (w : Work),
      s.works.find? (fun q => q.workId == aw.workId) = some w →
      aw.usersAdded.all (fun u => s.users.contains u) = true →
      (match aw.picId with | some u => s.users.contains u | none => true) = true →
      ((putAlterWork (some aw) s).2.1).works.find? (fun q => q.workId == aw.workId) =
        some { w with
               workName := aw.workName.getD w.workName,
               description := aw.description.getD w.description,
               startDate := aw.startDate.getD w.startDate,
               targetDate := aw.targetDate.getD w.targetDate,
               currentState := aw.currentState.getD w.currentState,
               picId := (match aw.picId with | some u => some u | none => w.picId),
               priorityId := aw.priorityId.getD w.priorityId,
               estimatedHours := aw.estimatedHours.getD w.estimatedHours,
               trackerId := aw.trackerId.getD w.trackerId,
               activityId := aw.activityId.getD w.activityId }) := by
  refine ⟨?_, ?_, ?_⟩
  · intro s ap pid p hpid hfind hpic
    have hany : s.projects.any (fun q => q.projectId == pid) = true :=
      List.any_eq_true.mpr ⟨p, List.mem_of_find?_eq_some hfind,
        @List.find?_some _ (fun q => q.projectId == pid) p s.projects hfind⟩
    have hupd : put_alter_project s (some pid) ap.projectName ap.description ap.targetDate
        ap.picId =
        .ok { s with projects := s.projects.map (fun q =>
          if q.projectId == pid then
            { q with projectName := ap.projectName.getD q.projectName,
                     description := ap.description.getD q.description,
                     targetDate := ap.targetDate.getD q.targetDate,
                     picId := ap.picId.getD q.picId }
          else q) } := by
      simp only [put_alter_project, hany, hpic]
      rfl
    have hfinal : ((putAlterProject (some ap) s).2.1).projects =
        s.projects.map (fun q =>
          if q.projectId == pid then
            { q with projectName := ap.projectName.getD q.projectName,
                     description := ap.description.getD q.description,
                     targetDate := ap.targetDate.getD q.targetDate,
                     picId := ap.picId.getD q.picId }
          else q) := by
      simp only [putAlterProject, hpid, hupd]
      rw [putAlterProjectRoles_projects]
    rw [hfinal]
    exact find?_map_ite (fun q => q.projectId)
      (fun q => { q with projectName := ap.projectName.getD q.projectName,
                         description := ap.description.getD q.description,
                         targetDate := ap.targetDate.getD q.targetDate,
                         picId := ap.picId.getD q.picId })
      pid (fun q => rfl) s.projects p hfind
  · intro s ab b hfind hpic
    have hany : s.backlogs.any (fun q => q.backlogId == ab.backlogId) = true :=
      List.any_eq_true.mpr ⟨b, List.mem_of_find?_eq_some hfind,
        @List.find?_some _ (fun q => q.backlogId == ab.backlogId) b s.backlogs hfind⟩
    have hupd : put_alter_backlog s ab.backlogId ab.backlogName ab.description ab.startDate
        ab.targetDate ab.picId ab.priorityId =
        .ok { s with backlogs := s.backlogs.map (fun q =>
          if q.backlogId == ab.backlogId then
            { q with backlogName := ab.backlogName.getD q.backlogName,
                     description := ab.description.getD q.description,
                     startDate := ab.startDate.getD q.startDate,
                     targetDate := ab.targetDate.getD q.targetDate,
                     picId := ab.picId.getD q.picId,
                     priorityId := ab.priorityId.getD q.priorityId }
          else q) } := by
      simp only [put_alter_backlog, hany, hpic]
      rfl
    simp only [putAlterBacklog, hupd]
    exact find?_map_ite (fun q => q.backlogId)
      (fun q => { q with backlogName := ab.backlogName.getD q.backlogName,
                         description := ab.description.getD q.description,
                         startDate := ab.startDate.getD q.startDate,
                         targetDate := ab.targetDate.getD q.targetDate,
                         picId := ab.picId.getD q.picId,
                         priorityId := ab.priorityId.getD q.priorityId })
      ab.backlogId (fun q => rfl) s.backlogs b hfind
  · intro s aw w hfind hall hpic
    have hany : s.works.any (fun q => q.workId == aw.workId) = true :=
      List.any_eq_true.mpr ⟨w, List.mem_of_find?_eq_some hfind,
        @List.find?_some _ (fun q => q.workId == aw.workId) w s.works hfind⟩
    have hupd : put_alter_work s aw.workId aw.workName aw.description aw.startDate
        aw.targetDate aw.currentState aw.picId aw.priorityId aw.estimatedHours aw.trackerId
        aw.activityId aw.usersRemoved aw.usersAdded =
        .ok { s with
              works := s.works.map (fun q =>
                if q.workId == aw.workId then
                  { q with
                    workName := aw.workName.getD q.workName,
                    description := aw.description.getD q.description,
                    startDate := aw.startDate.getD q.startDate,
                    targetDate := aw.targetDate.getD q.targetDate,
                    currentState := aw.currentState.getD q.currentState,
                    picId := (match aw.picId with | some u => some u | none => q.picId),
                    priorityId := aw.priorityId.getD q.priorityId,
                    estimatedHours := aw.estimatedHours.getD q.estimatedHours,
                    trackerId := aw.trackerId.getD q.trackerId,
                    activityId := aw.activityId.getD q.activityId }
                else q),
              workAssignment :=
                (s.workAssignment.filter (fun mr =>
                  !(mr.1 == aw.workId && aw.usersRemoved.contains mr.2))) ++
                ((aw.usersAdded.filter (fun u =>
                    !((s.workAssignment.filter (fun mr =>
                        !(mr.1 == aw.workId && aw.usersRemoved.contains mr.2))).contains
                      (aw.workId, u)))).map (fun u => (aw.workId, u))) } := by
      simp only [put_alter_work, hany, hall, hpic, Bool.not_true]
      rfl
    simp only [putAlterWork, hupd]
    exact find?_map_ite (fun q => q.workId)
      (fun q => { q with
                  workName := aw.workName.getD q.workName,
                  description := aw.description.getD q.description,
                  startDate := aw.startDate.getD q.startDate,
                  targetDate := aw.targetDate.getD q.targetDate,
                  currentState := aw.currentState.getD q.currentState,
                  picId := (match aw.picId with | some u => some u | none => q.picId),
                  priorityId := aw.priorityId.getD q.priorityId,
                  estimatedHours := aw.estimatedHours.getD q.estimatedHours,
                  trackerId := aw.trackerId.getD q.trackerId,
                  activityId := aw.activityId.getD q.activityId })
      aw.workId (fun q => rfl) s.works w hfind

theorem partial_update_field_mask_witness :
    ((putAlterProject (some { projectId := some 1, projectName := some "P2",
                              description := none, startDate := none, targetDate := none,
                              picId := some 2, userRoles := [] })
        sampleStoreFull).2.1).projects.find? (fun q => q.projectId == 1) =
      some { sampleProject with projectName := "P2", picId := 2 } ∧
    ((putAlterBacklog (some { backlogId := 1, backlogName := some "B2", description := none,
                              startDate := some 11, targetDate := none, picId := none,
                              priorityId := none })
        sampleStoreFull).2.1).backlogs.find? (fun q => q.backlogId == 1) =
      some { sampleBacklog with backlogName := "B2", startDate := 11 } ∧
    ((putAlterWork (some { workId := 1, workName := none, description := some "w2",
                           startDate := none, targetDate := none, picId := some 7,
                           currentState := some 2, priorityId := none,
                           estimatedHours := some 9, trackerId := none, activityId := none,
                           usersRemoved := [], usersAdded := [] })
        sampleStoreFull).2.1).works.find? (fun q => q.workId == 1) =
      some { sampleWork with
             description := "w2", picId := some 7, currentState := 2,
             estimatedHours := 9 } :=
  ⟨partial_update_field_mask.1 sampleStoreFull
     { projectId := some 1, projectName := some "P2", description := none, startDate := none,
       targetDate := none, picId := some 2, userRoles := [] }
     1 sampleProject rfl rfl rfl,
   partial_update_field_mask.2.1 sampleStoreFull
     { backlogId := 1, backlogName := some "B2", description := none, startDate := some 11,
       targetDate := none, picId := none, priorityId := none }
     sampleBacklog rfl rfl,
   partial_update_field_mask.2.2 sampleStoreFull
     { workId := 1, workName := none, description := some "w2", startDate := none,
       targetDate := none, picId := some 7, currentState := some 2, priorityId := none,
       estimatedHours := some 9, trackerId := none, activityId := none, usersRemoved := [],
       usersAdded := [] }
     sampleWork rfl rfl rfl⟩

/-- C3 counterexample to the claim as stated: a `putAlterProject` payload
supplying startDate 20 for project 1 succeeds, yet the stored row still
carries startDate 10 — the present field was not written, because the
handler never transmits startDate to the store. -/
theorem putAlterProject_startDate_dropped :
    (putAlterProject (some { projectId := some 1, projectName := none, description := none,
                             startDate := some 20, targetDate := none, picId := none,
                             userRoles := [] }) sampleStoreFull).1 =
      HandlerResult.ok "Project created successfully" ∧
    ((putAlterProject (some { projectId := some 1, projectName := none, description := none,
                              startDate := some 20, targetDate := none, picId := none,
                              userRoles := [] }) sampleStoreFull).2.1).projects =
      [sampleProject] ∧
    sampleProject.startDate = 10 :=
  ⟨rfl, rfl, rfl⟩

end ProjectManager
